import Mathlib

/-!
Shallow embedding of the AICheatSheetGenerator repository (src/config.py,
src/cheat_sheet_agent.py, src/practice_generator.py).

The repository orchestrates a two-stage call-and-escalate protocol against a
remote chat-completion service and stores the returned text as a timestamped
Markdown file.  The embedding below translates that logic definition by
definition from the Python source:

* the configuration dictionary of `Config` (config.py) becomes an association
  list of Python values (`PyVal`); a Python float is modelled as a rational;
* the remote completion service, an external collaborator, is a parameter
  `svc : Nat → SvcResult` giving the outcome of the n-th request of a run
  (`ok` a body, or `raise` — an exception with a message; a malformed
  response whose body is `None` raises at the same program point and is
  observationally the `raise` case);
* the prompt texts are transcribed character for character from the f-strings
  of `_create_prompt`, `_create_practice_prompt` and the two escalation
  blocks; interpolated fields become string concatenation;
* `datetime.now()` becomes an explicit `Timestamp` argument and
  `strftime("%Y%m%d_%H%M%S")` its zero-padded rendering;
* the file write in `save_cheat_sheet` / `save_practice_document`
  (`open(filepath, 'w')` then `f.write(content)`) can, following CPython
  semantics, fail before the file is created (`failOpen`) or after writing a
  prefix of the content (`failPartial k`): the `WriteOutcome` parameter picks
  the behaviour and the model records the files left on disk;
* console output through `rich` is recorded as a list of the printed strings
  (markup included); the `preview` flag only prints and is not modelled.
-/

namespace AICSG

/-- A value stored in the configuration dictionary of config.py.  The Python
float `0.7` is modelled as the rational `7/10`. -/
inductive PyVal where
  | str (s : String)
  | int (n : Int)
  | num (q : Rat)
  | bool (b : Bool)
deriving DecidableEq

/-- Python dict lookup on an association list.  `setKey` keeps keys unique, so
taking the first binding agrees with Python dict semantics. -/
def dictGet : List (String × PyVal) → String → Option PyVal
  | [], _ => none
  | (k', v) :: rest, k => if k' = k then some v else dictGet rest k

/-- Python dict assignment `d[k] = v`: replace an existing binding in place,
else append a new one. -/
def setKey : List (String × PyVal) → String → PyVal → List (String × PyVal)
  | [], k, v => [(k, v)]
  | (k', v') :: rest, k, v =>
    if k' = k then (k', v) :: rest else (k', v') :: setKey rest k v

/-- Python `dict.update`: assign every binding of `upd`, in order. -/
def dictUpdate (d upd : List (String × PyVal)) : List (String × PyVal) :=
  upd.foldl (fun acc kv => setKey acc kv.1 kv.2) d

/-- The hard-coded defaults of `Config.load_config` (config.py lines 17-26).
`env_openai_api_key` is the value of `os.getenv("OPENAI_API_KEY", "")`. -/
def default_config (env_openai_api_key : String) : List (String × PyVal) :=
  [("openai_api_key", .str env_openai_api_key),
   ("default_difficulty", .str "intermediate"),
   ("default_format", .str "comprehensive"),
   ("default_include_examples", .bool true),
   ("output_directory", .str "cheat_sheets"),
   ("model", .str "gpt-4o"),
   ("max_tokens", .int 16000),
   ("temperature", .num (7/10))]

/-- `Config.load_config` (config.py lines 16-34): the defaults, updated with
the saved config file when it exists and parses (`saved = none` covers both a
missing file and a `JSONDecodeError`/`IOError`, which the source ignores). -/
def load_config (env_openai_api_key : String)
    (saved : Option (List (String × PyVal))) : List (String × PyVal) :=
  match saved with
  | none => default_config env_openai_api_key
  | some sc => dictUpdate (default_config env_openai_api_key) sc

/-- `Config.get(key, default)` (config.py lines 43-44). -/
def configGet (d : List (String × PyVal)) (k : String) (dflt : PyVal) : PyVal :=
  (dictGet d k).getD dflt

/-- The `CheatSheetConfig` pydantic model (cheat_sheet_agent.py lines 17-22). -/
structure CheatSheetConfig where
  topic : String
  difficulty_level : String
  sections : Option (List String)
  format_style : String
  include_examples : Bool

/-- The `PracticeConfig` pydantic model (practice_generator.py lines 18-24). -/
structure PracticeConfig where
  topic : String
  difficulty_level : String
  exercise_count : Int
  include_solutions : Bool
  exercise_types : Option (List String)
  focus_areas : Option (List String)

/-- Python `str(b)` for a bool interpolated into an f-string. -/
def pyBoolStr : Bool → String
  | true => "True"
  | false => "False"

/-- Python truthiness of an optional list (`if config.sections:` is false for
`None` and for the empty list). -/
def pyTruthy : Option (List String) → Bool
  | none => false
  | some l => !l.isEmpty

/-- The default exercise-type list of `_create_practice_prompt`
(practice_generator.py lines 113-122). -/
def default_exercise_types : List String :=
  ["Basic Concepts",
   "Practical Applications",
   "Problem Solving",
   "Real-world Projects",
   "Code Debugging",
   "Performance Optimization",
   "Best Practices",
   "Integration Challenges"]

/-- `config.exercise_types or [...]` (practice_generator.py line 113): Python
`or` falls through on `None` and on the empty list. -/
def practice_exercise_types (c : PracticeConfig) : List String :=
  match c.exercise_types with
  | none => default_exercise_types
  | some l => if l.isEmpty then default_exercise_types else l
def cheat_system_initial : String :=
  "You are an expert technical writer and educator who creates comprehensive, well-structured cheat sheets for various technologies. Your cheat sheets are accurate, practical, and beautifully formatted in Markdown."

def cheat_system_escalated : String :=
  "You are an expert technical writer who creates extremely comprehensive, detailed reference documents. Never provide brief or summary content - always create extensive, complete guides."

def practice_system_initial : String :=
  "You are an expert educator and practical coding instructor who creates comprehensive, progressive practice exercises. Your exercises are designed to build real-world skills through hands-on learning, ranging from basic concepts to complex applications. You create exercises that simulate actual work scenarios and challenges developers face."

def practice_system_escalated : String :=
  "You are an expert practical coding instructor who creates extremely comprehensive, detailed practice documents. Never provide brief content - always create extensive, complete practical learning resources."


def cheat_retry_preamble (c : CheatSheetConfig) : String :=
  "\n" ++ "The previous response was too brief" ++ ". Please create a MUCH MORE COMPREHENSIVE cheat sheet for " ++ c.topic ++ ".

REQUIREMENTS:
- Write EVERYTHING in ENGLISH language only\n- " ++ "Minimum 8000+ words" ++ "\n- " ++ "Include at least 75 code examples" ++ "\n- Cover ALL major aspects in detail
- Add extensive explanations for each concept
- Include multiple approaches for each task
- Add real-world scenarios and use cases
- For libraries: Include TOP 50+ most used methods with complete documentation

"

def cheat_retry_tail : String :=
  "

IMPORTANT: Make this substantially longer and more detailed than a typical cheat sheet. This should be a complete learning resource.
"

def cheat_base_prompt (c : CheatSheetConfig) : String :=
  "
Create an EXTREMELY COMPREHENSIVE and DETAILED cheat sheet for " ++ c.topic ++ " targeted at " ++ c.difficulty_level ++ " level users.

CRITICAL REQUIREMENTS:
- Write EVERYTHING in ENGLISH language only
- This must be a COMPLETE, PROFESSIONAL-GRADE reference document
- Format: Rich, well-structured Markdown with extensive content
- Style: " ++ c.format_style ++ " - but always err on the side of MORE content
- Include examples: " ++ pyBoolStr c.include_examples ++ " - provide MULTIPLE examples for each concept
- Use proper Markdown syntax with headers, code blocks, tables, and lists
- Add emojis for visual appeal and better organization
- Include a detailed table of contents with clickable links
- Organize content logically with MANY clear sections and subsections\n- " ++ "Minimum 75+ code examples" ++ " across different use cases
- Include edge cases, advanced techniques, and real-world scenarios
- For libraries: Focus extensively on the MOST COMMONLY USED and PRACTICAL methods/functions
- For libraries: Include comprehensive method reference with parameters, return values, and examples

"

def cheat_structure_guide (c : CheatSheetConfig) : String :=
  "
MANDATORY STRUCTURE - Each section must be COMPREHENSIVE:

# 🔥 " ++ c.topic ++ " - Complete Reference Guide

## 📑 Table of Contents
(Detailed TOC with all sections and subsections)

## 🚀 Installation & Setup
- Multiple installation methods
- Environment setup
- Version compatibility
- Common installation issues and solutions

## 🎯 Quick Start Guide  
- Basic setup
- First steps
- Hello world examples
- Initial configuration

## 📊 Core Concepts & Fundamentals
- Key terminology and definitions
- Underlying principles
- Architecture overview
- How it works internally

## 🔧 Basic Syntax & Operations
- Fundamental syntax
- Basic operations
- Data types and structures
- Essential functions/methods

## 💡 Intermediate Concepts
- Advanced syntax
- Complex operations
- Design patterns
- Best practices

## 🚀 Advanced Techniques
- Expert-level features
- Performance optimization
- Advanced patterns
- Complex scenarios

## 📝 Comprehensive Code Examples
- Beginner examples (15+ examples)
- Intermediate examples (20+ examples) 
- Advanced examples (15+ examples)
- Real-world use cases (15+ examples)
- Complete mini-projects (5+ projects)

## 📋 Essential Methods/Functions Reference
- TOP 50 most commonly used methods/functions with full details
- Complete parameter lists with types and descriptions
- Return value specifications
- Multiple usage examples for each method
- Performance considerations for each method
- Common use cases and patterns

## 🔧 Method Categories (for libraries)
- Data Creation & Loading methods
- Data Inspection & Information methods
- Data Selection & Filtering methods
- Data Transformation & Manipulation methods
- Data Aggregation & Grouping methods
- Data Cleaning & Preprocessing methods
- Data Export & Saving methods
- Performance & Memory methods

## 🔍 Common Use Cases & Patterns
- Typical workflows
- Standard patterns
- Problem-solving approaches
- Industry best practices

## ⚡ Performance & Optimization
- Performance tips
- Memory management
- Speed optimization
- Profiling techniques

## 🐛 Debugging & Troubleshooting
- Common errors and solutions
- Debugging techniques
- Logging and monitoring
- Error handling patterns

## ⚠️ Common Pitfalls & Gotchas
- Frequent mistakes
- What to avoid
- Edge cases
- Security considerations

## 🔗 Integration & Ecosystem
- Related tools and libraries
- Integration patterns
- Ecosystem overview
- Complementary technologies

## 📚 Additional Resources
- Official documentation
- Tutorials and courses
- Books and articles
- Community resources
- Tools and extensions

## 🎓 Practice Exercises
- Hands-on exercises
- Project ideas
- Challenges by difficulty level

CONTENT REQUIREMENTS:
- Write EVERYTHING in ENGLISH language - no other languages
- Each section must have substantial content (not just bullet points)
- Provide detailed explanations for every concept in English
- Include practical, working code examples with English comments
- Add tips, warnings, and best practices throughout
- Use tables for comparisons and reference data
- Include diagrams in ASCII art where helpful
- Provide multiple approaches to solve common problems
- Cover both theory and practical application
- Include version differences where relevant
- Add performance considerations
- Include security aspects where applicable
- For programming libraries: Include the TOP 50+ most essential and frequently used methods
- For each method: parameter types, descriptions, return values, and 2-3 usage examples
- Focus on methods that 80% of users will need in daily work
- Include method chaining examples and common patterns
- Add memory usage and performance tips for each major operation

SPECIAL FOCUS FOR LIBRARIES (like pandas, numpy, requests, etc.):
- Dedicate 40% of content to essential methods documentation
- Create comprehensive method reference tables
- Include method categories by functionality
- Show real-world usage patterns for each method
- Include troubleshooting for common method errors

The cheat sheet should be so comprehensive that someone could learn the technology from scratch using only this document, while also serving as a complete reference for experienced users.

MINIMUM LENGTH: This should be a substantial document with 150+ distinct pieces of information, examples, and explanations.\n" ++ "TARGET: 8000+ words" ++ " for truly comprehensive coverage.
"

def practice_retry_preamble (c : PracticeConfig) : String :=
  "\n" ++ "The previous response was too brief" ++ ". Please create a MUCH MORE COMPREHENSIVE practice document for " ++ c.topic ++ ".

REQUIREMENTS:
- Write EVERYTHING in ENGLISH language only\n- " ++ "Minimum 10,000+ words" ++ "\n- " ++ ("Include at least " ++ toString c.exercise_count ++ " detailed exercises") ++ "
- Progressive difficulty from basic to advanced
- Real-world scenarios and projects
- Complete solutions with explanations
- Multiple approaches for complex problems
- Industry-standard practices and patterns

"

def practice_retry_tail : String :=
  "

IMPORTANT: Make this a complete practical learning resource with extensive exercises and detailed solutions.
"

def practice_base_prompt (c : PracticeConfig) : String :=
  "
Create an EXTREMELY COMPREHENSIVE and PRACTICAL exercise document for " ++ c.topic ++ " targeted at " ++ c.difficulty_level ++ " level learners.

CRITICAL REQUIREMENTS:
- Write EVERYTHING in ENGLISH language only
- This must be a COMPLETE, HANDS-ON learning resource
- Format: Rich, well-structured Markdown with extensive practical content
- Difficulty Level: " ++ c.difficulty_level ++ " - but include progressive difficulty
- Include solutions: " ++ pyBoolStr c.include_solutions ++ " - provide DETAILED solutions with explanations
- " ++ ("Number of exercises: " ++ toString c.exercise_count ++ "+ exercises") ++ " across different categories
- Use proper Markdown syntax with headers, code blocks, tables, and lists
- Add emojis for visual appeal and better organization
- Include a detailed table of contents with clickable links
- Organize exercises by category and difficulty
- Include real-world scenarios and industry-standard problems
- Provide multiple solution approaches where applicable
- Include code reviews and best practice explanations
"

def practice_structure_guide (c : PracticeConfig) : String :=
  "
MANDATORY STRUCTURE - Each section must be COMPREHENSIVE:

# 🎯 " ++ c.topic ++ " - Comprehensive Practice Exercises

## 📑 Table of Contents
(Detailed TOC with all exercise categories and individual exercises)

## 🚀 Getting Started
- Setup instructions for practice environment
- Required tools and dependencies
- How to use this practice guide
- Recommended learning path

## 📊 Skill Assessment
- Pre-assessment quiz (10 questions)
- Skill level determination
- Personalized learning recommendations
- Progress tracking guide

## 🎓 Exercise Categories

### 🌱 Beginner Level (" ++ toString (c.exercise_count.fdiv 4) ++ " exercises)
**Category 1: Fundamentals & Basic Syntax**
- Exercise 1: [Title] - [Brief description]
  - **Objective**: Clear learning goal
  - **Difficulty**: ⭐☆☆☆☆
  - **Time Estimate**: X minutes
  - **Prerequisites**: What you need to know
  - **Problem Statement**: Detailed problem description
  - **Input/Output Examples**: Clear examples
  - **Hints**: Progressive hints
  - **Solution**: Complete solution with explanation
  - **Alternative Solutions**: Different approaches
  - **Code Review**: Best practices and improvements
  - **Extension Challenges**: Ways to extend the exercise

**Category 2: Basic Operations**
[Similar structure for each exercise]

### 🌿 Intermediate Level (" ++ toString (c.exercise_count.fdiv 3) ++ " exercises)
**Category 3: Practical Applications**
**Category 4: Data Manipulation & Processing**
**Category 5: Problem Solving Patterns**

### 🌳 Advanced Level (" ++ toString (c.exercise_count.fdiv 3) ++ " exercises)
**Category 6: Complex Scenarios**
**Category 7: Performance Optimization**
**Category 8: Integration & Real-world Projects**

### 🚀 Expert Level (" ++ toString (c.exercise_count.fdiv 4) ++ " exercises)
**Category 9: Advanced Techniques**
**Category 10: System Design & Architecture**

## 🏗️ Mini Projects (5-7 complete projects)
Each project should include:
- **Project Overview**: What you'll build
- **Learning Objectives**: Skills you'll develop
- **Requirements**: Functional and technical requirements
- **Architecture**: System design and structure
- **Step-by-step Implementation**: Detailed implementation guide
- **Testing Strategy**: How to test your solution
- **Deployment Guide**: How to deploy/run the project
- **Extensions**: Ways to improve and extend

### Project 1: [Name] - Beginner Project
### Project 2: [Name] - Intermediate Project
### Project 3: [Name] - Advanced Project
etc.

## 🔧 Code Review Exercises (10+ exercises)
- Common code issues to identify and fix
- Performance problems to optimize
- Security vulnerabilities to address
- Best practice violations to correct

## 🐛 Debugging Challenges (10+ exercises)
- Broken code to fix
- Logic errors to identify
- Performance issues to resolve
- Integration problems to solve

## 🏆 Coding Challenges & Competitions
- Algorithm challenges
- Time-limited exercises
- Optimization competitions
- Creative problem-solving tasks

## 📈 Progress Tracking
- Skill progression checklist
- Exercise completion tracker
- Performance metrics
- Next steps recommendations

## 🎯 Real-world Scenarios
- Industry-specific use cases
- Common workplace problems
- Client requirement simulations
- Team collaboration exercises

## 💡 Tips & Best Practices
- Development workflow tips
- Common pitfalls to avoid
- Performance optimization tips
- Code quality guidelines

## 📚 Additional Challenges
- Bonus exercises for extra practice
- Competition-style problems
- Open-ended creative challenges
- Research and exploration tasks

## 🔗 Resources & Next Steps
- Additional learning resources
- Advanced topics to explore
- Community and forums
- Professional development paths

EXERCISE FORMAT REQUIREMENTS:
Each exercise must include:
1. **Clear Title & Description**
2. **Learning Objectives** - What skills will be developed
3. **Difficulty Rating** - Visual star rating (⭐⭐⭐☆☆)
4. **Time Estimate** - Realistic completion time
5. **Prerequisites** - Required knowledge
6. **Problem Statement** - Clear, detailed problem description
7. **Input/Output Examples** - Multiple test cases
8. **Constraints** - Any limitations or requirements
9. **Hints Section** - Progressive hints (3-5 hints per exercise)
10. **Complete Solution** - Full working solution with comments
11. **Explanation** - Detailed solution explanation
12. **Alternative Approaches** - Different ways to solve the problem
13. **Code Review** - Best practices and improvements
14. **Testing Strategy** - How to test the solution
15. **Extension Challenges** - Ways to make it more complex
16. **Real-world Applications** - Where this skill is used

CONTENT REQUIREMENTS:
- Write EVERYTHING in ENGLISH language
- Each exercise must be substantial and educational
- Provide working, tested code examples
- Include detailed explanations for every solution
- Add practical tips and best practices throughout
- Use realistic data and scenarios
- Include error handling and edge cases
- Provide multiple solution approaches where applicable
- Add performance considerations
- Include security aspects where relevant
- For libraries: Focus on practical, real-world usage patterns
- Create exercises that simulate actual work scenarios
- Include collaborative coding exercises
- Add exercises for different development environments

SPECIAL FOCUS AREAS:
" ++ String.intercalate ", " (practice_exercise_types c) ++ "

The practice document should be so comprehensive that someone could master " ++ c.topic ++ " through these exercises alone, progressing from complete beginner to advanced practitioner.

MINIMUM REQUIREMENTS:
- " ++ toString c.exercise_count ++ "+ individual exercises
- 5+ complete mini-projects
- 10+ debugging challenges
- 10+ code review exercises
- Multiple difficulty levels with clear progression
- Real-world scenarios and applications
- Complete solutions with detailed explanations
\n" ++ "TARGET: 10,000+ words" ++ " for truly comprehensive practical learning.
"


/-- The optional sections directive of `_create_prompt` (cheat_sheet_agent.py
lines 127-128). -/
def cheat_sections_clause (c : CheatSheetConfig) : String :=
  if pyTruthy c.sections then
    "Focus extensively on these sections with deep detail: " ++
      String.intercalate ", " (c.sections.getD []) ++ "\n"
  else ""

/-- `CheatSheetAgent._create_prompt` (cheat_sheet_agent.py lines 106-273):
the base prompt, the optional sections directive, then the structure guide. -/
def create_prompt (c : CheatSheetConfig) : String :=
  cheat_base_prompt c ++ cheat_sections_clause c ++ cheat_structure_guide c

/-- The optional focus-areas directive of `_create_practice_prompt`
(practice_generator.py lines 143-144). -/
def practice_focus_clause (c : PracticeConfig) : String :=
  if pyTruthy c.focus_areas then
    "Focus extensively on these areas: " ++
      String.intercalate ", " (c.focus_areas.getD []) ++ "\n"
  else ""

/-- `PracticeGenerator._create_practice_prompt` (practice_generator.py lines
112-316). -/
def create_practice_prompt (c : PracticeConfig) : String :=
  practice_base_prompt c ++ practice_focus_clause c ++ practice_structure_guide c

/-- Outcome of one request to the remote completion service: a response body,
or an exception carrying a message. -/
inductive SvcResult where
  | ok (content : String)
  | raise (msg : String)

/-- One `client.chat.completions.create(...)` call as issued by the source:
the resolved model, the system and user message contents, and the resolved
temperature and max_tokens values. -/
structure ChatRequest where
  model : PyVal
  system_content : String
  user_content : String
  temperature : PyVal
  max_tokens : PyVal

/-- Observable outcome of a `generate_*` run: the returned content (`none`
for the `except` path returning `None`), the requests issued in order, and
the console lines printed. -/
structure GenRun where
  result : Option String
  requests : List ChatRequest
  console : List String

/-- Console warning printed before the cheat-sheet escalation
(cheat_sheet_agent.py line 63). -/
def cheat_short_warning : String :=
  "[yellow]⚠️ Content seems short, requesting more comprehensive version...[/yellow]"

/-- Console warning printed before the practice escalation
(practice_generator.py line 69). -/
def practice_short_warning : String :=
  "[yellow]⚠️ Generating more comprehensive exercises...[/yellow]"

/-- `CheatSheetAgent.generate_cheat_sheet` (cheat_sheet_agent.py lines 39-104).
`svc n` is the outcome of the n-th completion request of this run.  A first
response shorter than 5000 characters triggers the single escalated retry;
an exception at either stage is caught, logged and surfaced as `none`. -/
def generate_cheat_sheet (cfg : List (String × PyVal)) (svc : Nat → SvcResult)
    (config : CheatSheetConfig) : GenRun :=
  let prompt := create_prompt config
  let req1 : ChatRequest :=
    ⟨configGet cfg "model" (.str "gpt-4"), cheat_system_initial, prompt,
     configGet cfg "temperature" (.num (7/10)),
     configGet cfg "max_tokens" (.int 16000)⟩
  match svc 0 with
  | .raise e =>
    ⟨none, [req1], ["[red]Error generating cheat sheet: " ++ e ++ "[/red]"]⟩
  | .ok content =>
    if content.length < 5000 then
      let req2 : ChatRequest :=
        ⟨configGet cfg "model" (.str "gpt-4o"), cheat_system_escalated,
         cheat_retry_preamble config ++ prompt ++ cheat_retry_tail,
         configGet cfg "temperature" (.num (7/10)),
         configGet cfg "max_tokens" (.int 16000)⟩
      match svc 1 with
      | .raise e =>
        ⟨none, [req1, req2],
         [cheat_short_warning,
          "[red]Error generating cheat sheet: " ++ e ++ "[/red]"]⟩
      | .ok content2 => ⟨some content2, [req1, req2], [cheat_short_warning]⟩
    else ⟨some content, [req1], []⟩

/-- `PracticeGenerator.generate_practice_exercises` (practice_generator.py
lines 45-110).  Identical protocol with a 6000-character threshold. -/
def generate_practice_exercises (cfg : List (String × PyVal))
    (svc : Nat → SvcResult) (config : PracticeConfig) : GenRun :=
  let prompt := create_practice_prompt config
  let req1 : ChatRequest :=
    ⟨configGet cfg "model" (.str "gpt-4"), practice_system_initial, prompt,
     configGet cfg "temperature" (.num (7/10)),
     configGet cfg "max_tokens" (.int 16000)⟩
  match svc 0 with
  | .raise e =>
    ⟨none, [req1],
     ["[red]Error generating practice exercises: " ++ e ++ "[/red]"]⟩
  | .ok content =>
    if content.length < 6000 then
      let req2 : ChatRequest :=
        ⟨configGet cfg "model" (.str "gpt-4o"), practice_system_escalated,
         practice_retry_preamble config ++ prompt ++ practice_retry_tail,
         configGet cfg "temperature" (.num (7/10)),
         configGet cfg "max_tokens" (.int 16000)⟩
      match svc 1 with
      | .raise e =>
        ⟨none, [req1, req2],
         [practice_short_warning,
          "[red]Error generating practice exercises: " ++ e ++ "[/red]"]⟩
      | .ok content2 => ⟨some content2, [req1, req2], [practice_short_warning]⟩
    else ⟨some content, [req1], []⟩

/-- A wall-clock instant at second resolution, standing for `datetime.now()`. -/
structure Timestamp where
  year : Nat
  month : Nat
  day : Nat
  hour : Nat
  minute : Nat
  second : Nat
deriving DecidableEq

/-- Field ranges `datetime` guarantees (year below 10000, calendar fields in
range). -/
def Timestamp.valid (t : Timestamp) : Prop :=
  t.year ≤ 9999 ∧ 1 ≤ t.month ∧ t.month ≤ 12 ∧ 1 ≤ t.day ∧ t.day ≤ 31 ∧
    t.hour ≤ 23 ∧ t.minute ≤ 59 ∧ t.second ≤ 59

instance (t : Timestamp) : Decidable t.valid := by
  unfold Timestamp.valid; infer_instance

/-- Two decimal digits, zero padded: the strftime `%m`, `%d`, `%H`, `%M`,
`%S` rendering of an in-range field. -/
def pad2 (n : Nat) : List Char :=
  [Nat.digitChar (n / 10 % 10), Nat.digitChar (n % 10)]

/-- Four decimal digits, zero padded: the strftime `%Y` rendering of a year
below 10000. -/
def pad4 (n : Nat) : List Char :=
  [Nat.digitChar (n / 1000 % 10), Nat.digitChar (n / 100 % 10),
   Nat.digitChar (n / 10 % 10), Nat.digitChar (n % 10)]

/-- `datetime.now().strftime("%Y%m%d_%H%M%S")` (cheat_sheet_agent.py line 276,
practice_generator.py line 319). -/
def strftime_YmdHMS (t : Timestamp) : String :=
  ⟨pad4 t.year ++ pad2 t.month ++ pad2 t.day ++ ['_'] ++
    pad2 t.hour ++ pad2 t.minute ++ pad2 t.second⟩

/-- `topic.lower().replace(' ', '_')`: since the pattern is the single
character `' '`, the replace is a character map (ASCII lower casing, as in
`Char.toLower`). -/
def normalized_topic (topic : String) : String :=
  ⟨topic.data.map fun c => if c.toLower = ' ' then '_' else c.toLower⟩

/-- The target path of `save_cheat_sheet` (cheat_sheet_agent.py lines
276-278): `{output_dir}/{normalized_topic}_{timestamp}.md`. -/
def cheat_filepath (output_dir topic : String) (now : Timestamp) : String :=
  output_dir ++ "/" ++ normalized_topic topic ++ "_" ++ strftime_YmdHMS now ++ ".md"

/-- The target path of `save_practice_document` (practice_generator.py lines
42, 319-321): `{output_dir}/practices/{normalized_topic}_practice_{difficulty}_{timestamp}.md`. -/
def practice_filepath (output_dir topic difficulty : String) (now : Timestamp) : String :=
  output_dir ++ "/practices/" ++ normalized_topic topic ++ "_practice_" ++
    difficulty ++ "_" ++ strftime_YmdHMS now ++ ".md"

/-- Behaviour of the `open(filepath, 'w')` / `f.write(content)` pair under
CPython semantics: it succeeds; or opening raises, leaving no file; or the
write raises after `written` characters have reached the (just created or
truncated) file, leaving a partial file. -/
inductive WriteOutcome where
  | success
  | failOpen (msg : String)
  | failPartial (written : Nat) (msg : String)

/-- Observable outcome of a `save_*` call: the returned path (`None` on
failure), the files present at the target path afterwards, and the console
lines printed. -/
structure SaveRun where
  path : Option String
  files : List (String × String)
  console : List String

/-- `CheatSheetAgent.save_cheat_sheet` (cheat_sheet_agent.py lines 275-286). -/
def save_cheat_sheet (w : WriteOutcome) (now : Timestamp)
    (output_dir content topic : String) : SaveRun :=
  let filepath := cheat_filepath output_dir topic now
  match w with
  | .success => ⟨some filepath, [(filepath, content)], []⟩
  | .failOpen e => ⟨none, [], ["[red]Error saving file: " ++ e ++ "[/red]"]⟩
  | .failPartial k e =>
    ⟨none, [(filepath, ⟨content.data.take k⟩)],
     ["[red]Error saving file: " ++ e ++ "[/red]"]⟩

/-- `PracticeGenerator.save_practice_document` (practice_generator.py lines
318-329). -/
def save_practice_document (w : WriteOutcome) (now : Timestamp)
    (output_dir content topic difficulty : String) : SaveRun :=
  let filepath := practice_filepath output_dir topic difficulty now
  match w with
  | .success => ⟨some filepath, [(filepath, content)], []⟩
  | .failOpen e =>
    ⟨none, [], ["[red]Error saving practice document: " ++ e ++ "[/red]"]⟩
  | .failPartial k e =>
    ⟨none, [(filepath, ⟨content.data.take k⟩)],
     ["[red]Error saving practice document: " ++ e ++ "[/red]"]⟩

/-- Observable outcome of a `create_*` call: the returned path (`None` on any
failure), the files present on disk afterwards, and the console lines. -/
structure CreateRun where
  result : Option String
  files : List (String × String)
  console : List String

/-- `CheatSheetAgent.create_cheat_sheet` (cheat_sheet_agent.py lines 293-322).
`if not content: return None` drops both the `None` of a caught exception and
an empty response body before any file is touched.  The `preview` flag only
prints and is not modelled. -/
def create_cheat_sheet (cfg : List (String × PyVal)) (svc : Nat → SvcResult)
    (w : WriteOutcome) (now : Timestamp) (output_dir : String)
    (topic difficulty : String) (sections : Option (List String))
    (format_style : String) (include_examples : Bool) : CreateRun :=
  let config : CheatSheetConfig :=
    ⟨topic, difficulty, sections, format_style, include_examples⟩
  let header :=
    ["[yellow]🤖 Generating cheat sheet for: " ++ topic ++ "[/yellow]",
     "[dim]Difficulty: " ++ difficulty ++ " | Style: " ++ format_style ++ "[/dim]"]
  let g := generate_cheat_sheet cfg svc config
  match g.result with
  | none => ⟨none, [], header ++ g.console⟩
  | some content =>
    if content.isEmpty then ⟨none, [], header ++ g.console⟩
    else
      let s := save_cheat_sheet w now output_dir content topic
      match s.path with
      | some filepath =>
        ⟨some filepath, s.files,
         header ++ g.console ++ s.console ++
           ["[green]✅ Cheat sheet saved to: " ++ filepath ++ "[/green]"]⟩
      | none => ⟨none, s.files, header ++ g.console ++ s.console⟩

/-- `PracticeGenerator.create_practice_document` (practice_generator.py lines
338-370). -/
def create_practice_document (cfg : List (String × PyVal))
    (svc : Nat → SvcResult) (w : WriteOutcome) (now : Timestamp)
    (output_dir : String) (topic difficulty : String) (exercise_count : Int)
    (include_solutions : Bool) (focus_areas : Option (List String))
    (exercise_types : Option (List String)) : CreateRun :=
  let config : PracticeConfig :=
    ⟨topic, difficulty, exercise_count, include_solutions, exercise_types,
     focus_areas⟩
  let header :=
    ["[yellow]🎯 Generating practice exercises for: " ++ topic ++ "[/yellow]",
     "[dim]Difficulty: " ++ difficulty ++ " | Exercises: " ++
       toString exercise_count ++ "[/dim]"]
  let g := generate_practice_exercises cfg svc config
  match g.result with
  | none => ⟨none, [], header ++ g.console⟩
  | some content =>
    if content.isEmpty then ⟨none, [], header ++ g.console⟩
    else
      let s := save_practice_document w now output_dir content topic difficulty
      match s.path with
      | some filepath =>
        ⟨some filepath, s.files,
         header ++ g.console ++ s.console ++
           ["[green]✅ Practice document saved to: " ++ filepath ++ "[/green]"]⟩
      | none => ⟨none, s.files, header ++ g.console ++ s.console⟩

/-- Executable substring test on character lists: does `needle` occur
contiguously in the haystack? -/
def listContains (needle : List Char) : List Char → Bool
  | [] => needle.isEmpty
  | c :: cs => needle.isPrefixOf (c :: cs) || listContains needle cs

/-- Executable substring test on strings. -/
def strContains (hay needle : String) : Bool :=
  listContains needle.data hay.data

/-- The maximal decimal digit runs of a character list, as numbers, in order
of appearance; `acc` carries the run being read. -/
def extractNatsAux : List Char → Option Nat → List Nat
  | [], none => []
  | [], some n => [n]
  | c :: cs, acc =>
    if c.isDigit then
      extractNatsAux cs (some ((acc.getD 0) * 10 + (c.toNat - 48)))
    else
      match acc with
      | none => extractNatsAux cs none
      | some n => n :: extractNatsAux cs none

/-- Every number literally written in a string (maximal digit runs, in
order): the numeric targets a prompt text states. -/
def extractNats (s : String) : List Nat :=
  extractNatsAux s.data none

theorem isPrefixOf_extend (l t b : List Char) (h : l.isPrefixOf t = true) :
    l.isPrefixOf (t ++ b) = true := by
  simp only [List.isPrefixOf_iff_prefix] at h ⊢
  exact h.trans (List.prefix_append t b)

theorem listContains_nil_needle (h : List Char) : listContains [] h = true := by
  cases h <;> simp [listContains]

theorem listContains_append_left (n a t : List Char)
    (h : listContains n t = true) : listContains n (a ++ t) = true := by
  induction a with
  | nil => simpa using h
  | cons c cs ih => simp [listContains, ih]

theorem listContains_extend (n t b : List Char)
    (h : listContains n t = true) : listContains n (t ++ b) = true := by
  induction t with
  | nil =>
    simp [listContains, List.isEmpty_iff] at h
    subst h
    simpa using listContains_nil_needle b
  | cons c cs ih =>
    simp only [listContains, Bool.or_eq_true] at h
    rcases h with h | h
    · have h2 := isPrefixOf_extend _ _ b h
      simp only [List.cons_append] at h2
      simp [listContains, h2]
    · simp [listContains, ih h]

theorem listContains_self_append (n b : List Char) : listContains n (n ++ b) = true := by
  cases n with
  | nil => simpa using listContains_nil_needle b
  | cons x xs =>
    have hp : (x :: xs).isPrefixOf ((x :: xs) ++ b) = true := by
      simp only [List.isPrefixOf_iff_prefix]
      exact List.prefix_append _ _
    simp only [List.cons_append] at hp
    simp [listContains, hp]

/-- A substring of the right part is a substring of the whole. -/
theorem strContains_mono_right (a b n : String)
    (h : strContains b n = true) : strContains (a ++ b) n = true := by
  unfold strContains at h ⊢
  rw [String.data_append]
  exact listContains_append_left _ _ _ h

/-- A substring of the left part is a substring of the whole. -/
theorem strContains_mono_left (a b n : String)
    (h : strContains a n = true) : strContains (a ++ b) n = true := by
  unfold strContains at h ⊢
  rw [String.data_append]
  exact listContains_extend _ _ _ h

/-- Every string occurs in itself. -/
theorem strContains_self (n : String) : strContains n n = true := by
  unfold strContains
  simpa using listContains_self_append n.data []

theorem digitChar_injOn :
    ∀ a, a < 10 → ∀ b, b < 10 → Nat.digitChar a = Nat.digitChar b → a = b := by
  decide

/-- The `%Y%m%d_%H%M%S` rendering is injective on in-range timestamps. -/
theorem strftime_data_inj (t1 t2 : Timestamp) (h1 : t1.valid) (h2 : t2.valid)
    (h : (strftime_YmdHMS t1).data = (strftime_YmdHMS t2).data) : t1 = t2 := by
  obtain ⟨y1, mo1, d1, hr1, mi1, s1⟩ := t1
  obtain ⟨y2, mo2, d2, hr2, mi2, s2⟩ := t2
  simp only [Timestamp.valid] at h1 h2
  simp [strftime_YmdHMS, pad4, pad2] at h
  obtain ⟨e1, e2, e3, e4, e5, e6, e7, e8, e9, e10, e11, e12, e13, e14⟩ := h
  have hy : y1 = y2 := by
    have g1 := digitChar_injOn _ (by omega) _ (by omega) e1
    have g2 := digitChar_injOn _ (by omega) _ (by omega) e2
    have g3 := digitChar_injOn _ (by omega) _ (by omega) e3
    have g4 := digitChar_injOn _ (by omega) _ (by omega) e4
    omega
  have hmo : mo1 = mo2 := by
    have g1 := digitChar_injOn _ (by omega) _ (by omega) e5
    have g2 := digitChar_injOn _ (by omega) _ (by omega) e6
    omega
  have hd : d1 = d2 := by
    have g1 := digitChar_injOn _ (by omega) _ (by omega) e7
    have g2 := digitChar_injOn _ (by omega) _ (by omega) e8
    omega
  have hhr : hr1 = hr2 := by
    have g1 := digitChar_injOn _ (by omega) _ (by omega) e9
    have g2 := digitChar_injOn _ (by omega) _ (by omega) e10
    omega
  have hmi : mi1 = mi2 := by
    have g1 := digitChar_injOn _ (by omega) _ (by omega) e11
    have g2 := digitChar_injOn _ (by omega) _ (by omega) e12
    omega
  have hs : s1 = s2 := by
    have g1 := digitChar_injOn _ (by omega) _ (by omega) e13
    have g2 := digitChar_injOn _ (by omega) _ (by omega) e14
    omega
  subst hy hmo hd hhr hmi hs
  rfl

/-- A path of the shape `prefix ++ timestamp ++ ".md"` determines the
timestamp. -/
theorem filepath_time_inj (pre : String) (t1 t2 : Timestamp)
    (h1 : t1.valid) (h2 : t2.valid)
    (h : pre ++ strftime_YmdHMS t1 ++ ".md" = pre ++ strftime_YmdHMS t2 ++ ".md") :
    t1 = t2 := by
  have hd := congrArg String.data h
  simp only [String.data_append] at hd
  exact strftime_data_inj t1 t2 h1 h2
    (List.append_cancel_left (List.append_cancel_right hd))

set_option maxRecDepth 16000 in
/-- C1: for every generation run in which the first completion call returns a
body of length L without raising, the engine issues the escalated second
request if and only if L is strictly below the kind-specific threshold: 5000
characters for cheat sheets and 6000 for practice documents. -/
theorem C1_escalates_iff_short (cfg : List (String × PyVal))
    (svc : Nat → SvcResult) (c : CheatSheetConfig) (pc : PracticeConfig)
    (body : String) (h : svc 0 = .ok body) :
    ((generate_cheat_sheet cfg svc c).requests.length = 2 ↔ body.length < 5000) ∧
    ((generate_practice_exercises cfg svc pc).requests.length = 2 ↔
      body.length < 6000) := by
  constructor
  · by_cases hl : body.length < 5000
    · cases h1 : svc 1 <;> simp [generate_cheat_sheet, h, hl, h1]
    · simp [generate_cheat_sheet, h, hl]
  · by_cases hl : body.length < 6000
    · cases h1 : svc 1 <;> simp [generate_practice_exercises, h, hl, h1]
    · simp [generate_practice_exercises, h, hl]

/-- C1 witness: a 4999-character first response escalates, a 5000-character
one does not (cheat-sheet kind). -/
theorem C1_escalates_iff_short_witness :
    (generate_cheat_sheet (load_config "key" none)
        (fun _ => SvcResult.ok ⟨List.replicate 4999 'a'⟩)
        ⟨"pandas", "intermediate", none, "comprehensive", true⟩).requests.length = 2 ∧
    ¬ (generate_cheat_sheet (load_config "key" none)
        (fun _ => SvcResult.ok ⟨List.replicate 5000 'a'⟩)
        ⟨"pandas", "intermediate", none, "comprehensive", true⟩).requests.length = 2 := by
  constructor
  · exact ((C1_escalates_iff_short (load_config "key" none)
        (fun _ => SvcResult.ok ⟨List.replicate 4999 'a'⟩)
        ⟨"pandas", "intermediate", none, "comprehensive", true⟩
        ⟨"pandas", "intermediate", 20, true, none, none⟩
        ⟨List.replicate 4999 'a'⟩ rfl).1).mpr
      (show (List.replicate 4999 'a').length < 5000 by rw [List.length_replicate]; omega)
  · intro hcontra
    have := ((C1_escalates_iff_short (load_config "key" none)
        (fun _ => SvcResult.ok ⟨List.replicate 5000 'a'⟩)
        ⟨"pandas", "intermediate", none, "comprehensive", true⟩
        ⟨"pandas", "intermediate", 20, true, none, none⟩
        ⟨List.replicate 5000 'a'⟩ rfl).1).mp hcontra
    have h5 : (List.replicate 5000 'a').length < 5000 := this
    rw [List.length_replicate] at h5
    omega

/-- C2: every generation run issues at most two completion requests,
whatever the service returns or raises at either stage. -/
theorem C2_at_most_two_requests (cfg : List (String × PyVal))
    (svc : Nat → SvcResult) (c : CheatSheetConfig) (pc : PracticeConfig) :
    (generate_cheat_sheet cfg svc c).requests.length ≤ 2 ∧
    (generate_practice_exercises cfg svc pc).requests.length ≤ 2 := by
  constructor
  · cases h0 : svc 0 with
    | raise e => simp [generate_cheat_sheet, h0]
    | ok content =>
      by_cases hl : content.length < 5000
      · cases h1 : svc 1 <;> simp [generate_cheat_sheet, h0, hl, h1]
      · simp [generate_cheat_sheet, h0, hl]
  · cases h0 : svc 0 with
    | raise e => simp [generate_practice_exercises, h0]
    | ok content =>
      by_cases hl : content.length < 6000
      · cases h1 : svc 1 <;> simp [generate_practice_exercises, h0, hl, h1]
      · simp [generate_practice_exercises, h0, hl]

/-- C7: prompt rendering is deterministic: the rendered instruction text is a
pure function of the document specification (the source reads no clock,
randomness or ambient state in `_create_prompt` / `_create_practice_prompt`),
so two calls on equal specifications produce byte-identical text. -/
theorem C7_prompt_rendering_deterministic (c c' : CheatSheetConfig)
    (pc pc' : PracticeConfig) (hc : c = c') (hp : pc = pc') :
    create_prompt c = create_prompt c' ∧
    create_practice_prompt pc = create_practice_prompt pc' := by
  subst hc
  subst hp
  exact ⟨rfl, rfl⟩

/-- C7 witness: the determinism theorem applied at a concrete specification. -/
theorem C7_prompt_rendering_deterministic_witness :
    create_prompt ⟨"pandas", "intermediate", none, "comprehensive", true⟩ =
      create_prompt ⟨"pandas", "intermediate", none, "comprehensive", true⟩ ∧
    create_practice_prompt ⟨"pandas", "intermediate", 20, true, none, none⟩ =
      create_practice_prompt ⟨"pandas", "intermediate", 20, true, none, none⟩ :=
  C7_prompt_rendering_deterministic _ _ _ _ rfl rfl

theorem dictGet_setKey_isSome (d : List (String × PyVal)) (k k' : String)
    (v : PyVal) (h : (dictGet d k).isSome) :
    (dictGet (setKey d k' v) k).isSome := by
  induction d with
  | nil => simp [dictGet] at h
  | cons kv rest ih =>
    obtain ⟨k0, v0⟩ := kv
    by_cases e : k0 = k'
    · by_cases f : k0 = k <;> simp_all [setKey, dictGet]
    · by_cases f : k0 = k <;> simp_all [setKey, dictGet]

theorem dictGet_dictUpdate_isSome (u d : List (String × PyVal)) (k : String)
    (h : (dictGet d k).isSome) : (dictGet (dictUpdate d u) k).isSome := by
  induction u generalizing d with
  | nil => simpa [dictUpdate] using h
  | cons kv rest ih =>
    simp only [dictUpdate, List.foldl_cons]
    exact ih _ (dictGet_setKey_isSome d k kv.1 kv.2 h)

/-- Whatever the saved configuration file holds, the merged configuration
always binds "model" (loading never removes a default key), so the two
differing hard-coded fallbacks of the engine are both dead. -/
theorem configGet_model_indep (env : String)
    (saved : Option (List (String × PyVal))) (d1 d2 : PyVal) :
    configGet (load_config env saved) "model" d1 =
      configGet (load_config env saved) "model" d2 := by
  have hbase : dictGet (default_config env) "model" = some (.str "gpt-4o") := rfl
  have hsome : (dictGet (load_config env saved) "model").isSome := by
    cases saved with
    | none => simp [load_config, hbase]
    | some sc =>
      exact dictGet_dictUpdate_isSome sc _ _ (by simp [hbase])
  obtain ⟨v, hv⟩ := Option.isSome_iff_exists.mp hsome
  simp [configGet, hv]

/-- C3 counterexample: with the default configuration (no saved file), the
escalation branch is taken and both requests resolve to the same model
identifier "gpt-4o" — the second request's model is not distinct from the
first's. -/
theorem C3_counterexample_same_model :
    (generate_cheat_sheet (load_config "key" none) (fun _ => SvcResult.ok "")
        ⟨"pandas", "intermediate", none, "comprehensive", true⟩).requests.length = 2 ∧
    (generate_cheat_sheet (load_config "key" none) (fun _ => SvcResult.ok "")
        ⟨"pandas", "intermediate", none, "comprehensive", true⟩).requests.map
        ChatRequest.model = [PyVal.str "gpt-4o", PyVal.str "gpt-4o"] :=
  ⟨rfl, rfl⟩

/-- C3 (amended): whenever the escalation branch is taken, the second request
uses the same model identifier as the first (both calls resolve the "model"
key of the configuration, which is always bound, so the differing hard-coded
fallbacks "gpt-4" and "gpt-4o" never apply), with the same temperature and
the same max-token budget. -/
theorem C3_corrected_uniform_parameters (env : String)
    (saved : Option (List (String × PyVal))) (svc : Nat → SvcResult)
    (c : CheatSheetConfig) (pc : PracticeConfig)
    (h2 : (generate_cheat_sheet (load_config env saved) svc c).requests.length = 2)
    (h2p : (generate_practice_exercises (load_config env saved) svc pc).requests.length = 2) :
    ((generate_cheat_sheet (load_config env saved) svc c).requests.map
        ChatRequest.model =
      List.replicate 2 (configGet (load_config env saved) "model" (.str "gpt-4o")) ∧
     (generate_cheat_sheet (load_config env saved) svc c).requests.map
        ChatRequest.temperature =
      List.replicate 2 (configGet (load_config env saved) "temperature" (.num (7/10))) ∧
     (generate_cheat_sheet (load_config env saved) svc c).requests.map
        ChatRequest.max_tokens =
      List.replicate 2 (configGet (load_config env saved) "max_tokens" (.int 16000))) ∧
    ((generate_practice_exercises (load_config env saved) svc pc).requests.map
        ChatRequest.model =
      List.replicate 2 (configGet (load_config env saved) "model" (.str "gpt-4o")) ∧
     (generate_practice_exercises (load_config env saved) svc pc).requests.map
        ChatRequest.temperature =
      List.replicate 2 (configGet (load_config env saved) "temperature" (.num (7/10))) ∧
     (generate_practice_exercises (load_config env saved) svc pc).requests.map
        ChatRequest.max_tokens =
      List.replicate 2 (configGet (load_config env saved) "max_tokens" (.int 16000))) := by
  have hm := configGet_model_indep env saved (.str "gpt-4") (.str "gpt-4o")
  constructor
  · cases h0 : svc 0 with
    | raise e => simp [generate_cheat_sheet, h0] at h2
    | ok content =>
      by_cases hl : content.length < 5000
      · cases h1 : svc 1 <;>
          simp [generate_cheat_sheet, h0, hl, h1, hm, List.replicate]
      · simp [generate_cheat_sheet, h0, hl] at h2
  · cases h0 : svc 0 with
    | raise e => simp [generate_practice_exercises, h0] at h2p
    | ok content =>
      by_cases hl : content.length < 6000
      · cases h1 : svc 1 <;>
          simp [generate_practice_exercises, h0, hl, h1, hm, List.replicate]
      · simp [generate_practice_exercises, h0, hl] at h2p

/-- C3 witness: the amended uniformity theorem applied to a concrete
escalating run under the default configuration. -/
theorem C3_corrected_uniform_parameters_witness :
    (generate_cheat_sheet (load_config "key" none) (fun _ => SvcResult.ok "")
        ⟨"pandas", "intermediate", none, "comprehensive", true⟩).requests.map
        ChatRequest.model =
      List.replicate 2 (configGet (load_config "key" none) "model" (.str "gpt-4o")) ∧
    (generate_practice_exercises (load_config "key" none)
        (fun _ => SvcResult.ok "")
        ⟨"pandas", "intermediate", 20, true, none, none⟩).requests.map
        ChatRequest.model =
      List.replicate 2 (configGet (load_config "key" none) "model" (.str "gpt-4o")) := by
  have h := C3_corrected_uniform_parameters "key" none (fun _ => SvcResult.ok "")
    ⟨"pandas", "intermediate", none, "comprehensive", true⟩
    ⟨"pandas", "intermediate", 20, true, none, none⟩ rfl rfl
  exact ⟨h.1.1, h.2.1⟩

/-- C4 (amended): the amplified escalation instruction restates the numeric
targets of the first-stage instruction unchanged, rather than raising them:
for cheat sheets it demands "Minimum 8000+ words" and "Include at least 75
code examples" against the original's "TARGET: 8000+ words" and "Minimum 75+
code examples"; for practice documents it demands "Minimum 10,000+ words"
and "Include at least {exercise_count} detailed exercises" against the
original's "TARGET: 10,000+ words" and "Number of exercises:
{exercise_count}+ exercises". -/
theorem C4_corrected_targets_restated (c : CheatSheetConfig) (pc : PracticeConfig) :
    strContains (cheat_retry_preamble c) "Minimum 8000+ words" = true ∧
    strContains (create_prompt c) "TARGET: 8000+ words" = true ∧
    strContains (cheat_retry_preamble c) "Include at least 75 code examples" = true ∧
    strContains (create_prompt c) "Minimum 75+ code examples" = true ∧
    strContains (practice_retry_preamble pc) "Minimum 10,000+ words" = true ∧
    strContains (create_practice_prompt pc) "TARGET: 10,000+ words" = true ∧
    strContains (practice_retry_preamble pc)
      ("Include at least " ++ toString pc.exercise_count ++ " detailed exercises") = true ∧
    strContains (create_practice_prompt pc)
      ("Number of exercises: " ++ toString pc.exercise_count ++ "+ exercises") = true := by
  refine ⟨?_, ?_, ?_, ?_, ?_, ?_, ?_, ?_⟩
  · unfold cheat_retry_preamble
    apply strContains_mono_left
    apply strContains_mono_left
    apply strContains_mono_left
    apply strContains_mono_right
    exact strContains_self _
  · unfold create_prompt cheat_structure_guide
    apply strContains_mono_right
    apply strContains_mono_left
    apply strContains_mono_right
    exact strContains_self _
  · unfold cheat_retry_preamble
    apply strContains_mono_left
    apply strContains_mono_right
    exact strContains_self _
  · unfold create_prompt cheat_base_prompt
    apply strContains_mono_left
    apply strContains_mono_left
    apply strContains_mono_left
    apply strContains_mono_right
    exact strContains_self _
  · unfold practice_retry_preamble
    apply strContains_mono_left
    apply strContains_mono_left
    apply strContains_mono_left
    apply strContains_mono_right
    exact strContains_self _
  · unfold create_practice_prompt practice_structure_guide
    apply strContains_mono_right
    apply strContains_mono_left
    apply strContains_mono_right
    exact strContains_self _
  · unfold practice_retry_preamble
    apply strContains_mono_left
    apply strContains_mono_right
    exact strContains_self _
  · unfold create_practice_prompt practice_base_prompt
    apply strContains_mono_left
    apply strContains_mono_left
    apply strContains_mono_left
    apply strContains_mono_right
    exact strContains_self _

set_option maxRecDepth 8000 in
/-- C4 counterexample: for the concrete cheat-sheet run on topic "pandas" the
escalation branch is taken, and the numbers stated in the amplification
directives are exactly 8000, 75 and 50 (its tail states none) — identical to
the original instruction's stated targets of 8000 words and 75 examples, not
roughly 50% above them (in particular no raised word target such as 12000
appears anywhere in the added text). -/
theorem C4_counterexample_targets_not_raised :
    (generate_cheat_sheet (load_config "key" none) (fun _ => SvcResult.ok "")
        ⟨"pandas", "intermediate", none, "comprehensive", true⟩).requests.length = 2 ∧
    extractNats (cheat_retry_preamble
        ⟨"pandas", "intermediate", none, "comprehensive", true⟩) = [8000, 75, 50] ∧
    extractNats cheat_retry_tail = [] ∧
    strContains (create_prompt
        ⟨"pandas", "intermediate", none, "comprehensive", true⟩)
      "TARGET: 8000+ words" = true ∧
    strContains (create_prompt
        ⟨"pandas", "intermediate", none, "comprehensive", true⟩)
      "Minimum 75+ code examples" = true ∧
    strContains (cheat_retry_preamble
        ⟨"pandas", "intermediate", none, "comprehensive", true⟩) "12000" = false := by
  refine ⟨rfl, by decide, by decide, ?_, ?_, by decide⟩
  · unfold create_prompt cheat_structure_guide
    apply strContains_mono_right
    apply strContains_mono_left
    apply strContains_mono_right
    exact strContains_self _
  · unfold create_prompt cheat_base_prompt
    apply strContains_mono_left
    apply strContains_mono_left
    apply strContains_mono_left
    apply strContains_mono_right
    exact strContains_self _

/-- C5: a transport error on the first completion call yields an absent
result and no file on disk; a short first response followed by a transport
error on the escalated call likewise yields an absent result and no file —
in particular the short first-stage body is never persisted. -/
theorem C5_failures_yield_no_file (cfg : List (String × PyVal))
    (svcA svcB svcC svcD : Nat → SvcResult) (w : WriteOutcome)
    (now : Timestamp) (od topic difficulty : String)
    (sections : Option (List String)) (fs : String) (ie : Bool)
    (ec : Int) (isol : Bool) (fa et : Option (List String))
    (e1 e2 e3 e4 bodyB bodyD : String)
    (hA : svcA 0 = .raise e1)
    (hB0 : svcB 0 = .ok bodyB) (hBlen : bodyB.length < 5000)
    (hB1 : svcB 1 = .raise e2)
    (hC : svcC 0 = .raise e3)
    (hD0 : svcD 0 = .ok bodyD) (hDlen : bodyD.length < 6000)
    (hD1 : svcD 1 = .raise e4) :
    ((create_cheat_sheet cfg svcA w now od topic difficulty sections fs ie).result = none ∧
     (create_cheat_sheet cfg svcA w now od topic difficulty sections fs ie).files = []) ∧
    ((create_cheat_sheet cfg svcB w now od topic difficulty sections fs ie).result = none ∧
     (create_cheat_sheet cfg svcB w now od topic difficulty sections fs ie).files = []) ∧
    ((create_practice_document cfg svcC w now od topic difficulty ec isol fa et).result = none ∧
     (create_practice_document cfg svcC w now od topic difficulty ec isol fa et).files = []) ∧
    ((create_practice_document cfg svcD w now od topic difficulty ec isol fa et).result = none ∧
     (create_practice_document cfg svcD w now od topic difficulty ec isol fa et).files = []) := by
  refine ⟨⟨?_, ?_⟩, ⟨?_, ?_⟩, ⟨?_, ?_⟩, ⟨?_, ?_⟩⟩ <;>
    simp [create_cheat_sheet, create_practice_document, generate_cheat_sheet,
      generate_practice_exercises, hA, hB0, hBlen, hB1, hC, hD0, hDlen, hD1]

/-- C5 witness: the failure-propagation theorem applied to concrete stub
services (an immediate transport error, and an empty first body followed by
a transport error). -/
theorem C5_failures_yield_no_file_witness :
    ((create_cheat_sheet (load_config "key" none) (fun _ => SvcResult.raise "boom")
        WriteOutcome.success ⟨2025, 1, 1, 0, 0, 0⟩ "cheat_sheets" "pandas"
        "intermediate" none "comprehensive" true).result = none ∧
     (create_cheat_sheet (load_config "key" none) (fun _ => SvcResult.raise "boom")
        WriteOutcome.success ⟨2025, 1, 1, 0, 0, 0⟩ "cheat_sheets" "pandas"
        "intermediate" none "comprehensive" true).files = []) ∧
    ((create_cheat_sheet (load_config "key" none)
        (fun n => if n = 0 then SvcResult.ok "" else SvcResult.raise "boom")
        WriteOutcome.success ⟨2025, 1, 1, 0, 0, 0⟩ "cheat_sheets" "pandas"
        "intermediate" none "comprehensive" true).result = none ∧
     (create_cheat_sheet (load_config "key" none)
        (fun n => if n = 0 then SvcResult.ok "" else SvcResult.raise "boom")
        WriteOutcome.success ⟨2025, 1, 1, 0, 0, 0⟩ "cheat_sheets" "pandas"
        "intermediate" none "comprehensive" true).files = []) ∧
    ((create_practice_document (load_config "key" none)
        (fun _ => SvcResult.raise "boom") WriteOutcome.success
        ⟨2025, 1, 1, 0, 0, 0⟩ "cheat_sheets" "pandas" "intermediate" 20 true
        none none).result = none ∧
     (create_practice_document (load_config "key" none)
        (fun _ => SvcResult.raise "boom") WriteOutcome.success
        ⟨2025, 1, 1, 0, 0, 0⟩ "cheat_sheets" "pandas" "intermediate" 20 true
        none none).files = []) ∧
    ((create_practice_document (load_config "key" none)
        (fun n => if n = 0 then SvcResult.ok "" else SvcResult.raise "boom")
        WriteOutcome.success ⟨2025, 1, 1, 0, 0, 0⟩ "cheat_sheets" "pandas"
        "intermediate" 20 true none none).result = none ∧
     (create_practice_document (load_config "key" none)
        (fun n => if n = 0 then SvcResult.ok "" else SvcResult.raise "boom")
        WriteOutcome.success ⟨2025, 1, 1, 0, 0, 0⟩ "cheat_sheets" "pandas"
        "intermediate" 20 true none none).files = []) :=
  C5_failures_yield_no_file (load_config "key" none)
    (fun _ => SvcResult.raise "boom")
    (fun n => if n = 0 then SvcResult.ok "" else SvcResult.raise "boom")
    (fun _ => SvcResult.raise "boom")
    (fun n => if n = 0 then SvcResult.ok "" else SvcResult.raise "boom")
    WriteOutcome.success ⟨2025, 1, 1, 0, 0, 0⟩ "cheat_sheets" "pandas"
    "intermediate" none "comprehensive" true 20 true none none
    "boom" "boom" "boom" "boom" "" ""
    rfl rfl (by decide) rfl rfl rfl (by decide) rfl

/-- C6: whenever the escalation branch is taken, the escalated request's
instruction text is exactly the amplification preamble, then the full
original rendered instruction as a contiguous substring, then a closing
amplification directive — the original content requirements are retained,
not replaced. -/
theorem C6_escalated_contains_original (cfg : List (String × PyVal))
    (svc : Nat → SvcResult) (c : CheatSheetConfig) (pc : PracticeConfig)
    (r s : ChatRequest)
    (hr : (generate_cheat_sheet cfg svc c).requests[1]? = some r)
    (hs : (generate_practice_exercises cfg svc pc).requests[1]? = some s) :
    (r.user_content =
        cheat_retry_preamble c ++ create_prompt c ++ cheat_retry_tail ∧
     strContains r.user_content (create_prompt c) = true ∧
     strContains (cheat_retry_preamble c)
       "The previous response was too brief" = true ∧
     cheat_retry_tail ≠ "") ∧
    (s.user_content =
        practice_retry_preamble pc ++ create_practice_prompt pc ++
          practice_retry_tail ∧
     strContains s.user_content (create_practice_prompt pc) = true ∧
     strContains (practice_retry_preamble pc)
       "The previous response was too brief" = true ∧
     practice_retry_tail ≠ "") := by
  constructor
  · cases h0 : svc 0 with
    | raise e => simp [generate_cheat_sheet, h0] at hr
    | ok content =>
      by_cases hl : content.length < 5000
      · cases h1 : svc 1 <;> simp [generate_cheat_sheet, h0, hl, h1] at hr
        all_goals
          subst hr
          exact ⟨rfl, by
            apply strContains_mono_left
            apply strContains_mono_right
            exact strContains_self _, by
            unfold cheat_retry_preamble
            apply strContains_mono_left
            apply strContains_mono_left
            apply strContains_mono_left
            apply strContains_mono_left
            apply strContains_mono_left
            apply strContains_mono_left
            apply strContains_mono_left
            apply strContains_mono_right
            exact strContains_self _, by decide⟩
      · simp [generate_cheat_sheet, h0, hl] at hr
  · cases h0 : svc 0 with
    | raise e => simp [generate_practice_exercises, h0] at hs
    | ok content =>
      by_cases hl : content.length < 6000
      · cases h1 : svc 1 <;> simp [generate_practice_exercises, h0, hl, h1] at hs
        all_goals
          subst hs
          exact ⟨rfl, by
            apply strContains_mono_left
            apply strContains_mono_right
            exact strContains_self _, by
            unfold practice_retry_preamble
            apply strContains_mono_left
            apply strContains_mono_left
            apply strContains_mono_left
            apply strContains_mono_left
            apply strContains_mono_left
            apply strContains_mono_left
            apply strContains_mono_left
            apply strContains_mono_right
            exact strContains_self _, by decide⟩
      · simp [generate_practice_exercises, h0, hl] at hs

/-- C6 witness: the containment theorem applied to a concrete escalating run
(empty first response) for both document kinds. -/
theorem C6_escalated_contains_original_witness :
    (((generate_cheat_sheet (load_config "key" none) (fun _ => SvcResult.ok "")
        ⟨"pandas", "intermediate", none, "comprehensive", true⟩).requests[1]?).getD
        (⟨PyVal.str "", "", "", PyVal.str "", PyVal.str ""⟩ : ChatRequest)).user_content =
      cheat_retry_preamble ⟨"pandas", "intermediate", none, "comprehensive", true⟩ ++
        create_prompt ⟨"pandas", "intermediate", none, "comprehensive", true⟩ ++
        cheat_retry_tail ∧
    (((generate_practice_exercises (load_config "key" none)
        (fun _ => SvcResult.ok "")
        ⟨"pandas", "intermediate", 20, true, none, none⟩).requests[1]?).getD
        (⟨PyVal.str "", "", "", PyVal.str "", PyVal.str ""⟩ : ChatRequest)).user_content =
      practice_retry_preamble ⟨"pandas", "intermediate", 20, true, none, none⟩ ++
        create_practice_prompt ⟨"pandas", "intermediate", 20, true, none, none⟩ ++
        practice_retry_tail := by
  have h := C6_escalated_contains_original (load_config "key" none)
    (fun _ => SvcResult.ok "")
    ⟨"pandas", "intermediate", none, "comprehensive", true⟩
    ⟨"pandas", "intermediate", 20, true, none, none⟩ _ _ rfl rfl
  exact ⟨h.1.1, h.2.1⟩

/-- C8: a successfully stored cheat sheet lives directly under the output
directory at `{normalizedTopic}_{YYYYMMDD_HHMMSS}.md` and a practice document
under its `practices/` subdirectory at
`{normalizedTopic}_practice_{difficulty}_{YYYYMMDD_HHMMSS}.md`; two
generations for the same topic whose second-resolution timestamps differ
target two distinct, non-overwriting paths. -/
theorem C8_file_naming_and_collision_avoidance
    (od topic difficulty content : String) (t1 t2 : Timestamp)
    (hv1 : t1.valid) (hv2 : t2.valid) (hne : t1 ≠ t2) :
    (save_cheat_sheet .success t1 od content topic).path =
      some (od ++ "/" ++ normalized_topic topic ++ "_" ++
        strftime_YmdHMS t1 ++ ".md") ∧
    (save_practice_document .success t1 od content topic difficulty).path =
      some (od ++ "/practices/" ++ normalized_topic topic ++ "_practice_" ++
        difficulty ++ "_" ++ strftime_YmdHMS t1 ++ ".md") ∧
    cheat_filepath od topic t1 ≠ cheat_filepath od topic t2 ∧
    practice_filepath od topic difficulty t1 ≠
      practice_filepath od topic difficulty t2 := by
  refine ⟨rfl, rfl, ?_, ?_⟩
  · intro hcontra
    unfold cheat_filepath at hcontra
    exact hne (filepath_time_inj _ t1 t2 hv1 hv2 hcontra)
  · intro hcontra
    unfold practice_filepath at hcontra
    exact hne (filepath_time_inj _ t1 t2 hv1 hv2 hcontra)

/-- C8 witness: the naming theorem applied one second apart. -/
theorem C8_file_naming_and_collision_avoidance_witness :
    cheat_filepath "cheat_sheets" "pandas" ⟨2025, 1, 1, 0, 0, 0⟩ ≠
      cheat_filepath "cheat_sheets" "pandas" ⟨2025, 1, 1, 0, 0, 1⟩ ∧
    practice_filepath "cheat_sheets" "pandas" "intermediate"
        ⟨2025, 1, 1, 0, 0, 0⟩ ≠
      practice_filepath "cheat_sheets" "pandas" "intermediate"
        ⟨2025, 1, 1, 0, 0, 1⟩ := by
  have h := C8_file_naming_and_collision_avoidance "cheat_sheets" "pandas"
    "intermediate" "body" ⟨2025, 1, 1, 0, 0, 0⟩ ⟨2025, 1, 1, 0, 0, 1⟩
    (by decide) (by decide) (by decide)
  exact ⟨h.2.2.1, h.2.2.2⟩

/-- C9 (amended): if the write step fails after a successful (non-empty)
generation, the operation returns the absent-result signal — the same
caller-visible signal as a generation failure — and reports the storage
failure on the operator channel with its own message, distinct from the
generation-error message; when the failure occurs while opening the file no
file remains at the target path, but a failure during writing leaves a
partial (truncated) file there. -/
theorem C9_corrected_storage_failure (cfg : List (String × PyVal))
    (svc : Nat → SvcResult) (now : Timestamp) (od topic difficulty : String)
    (sections : Option (List String)) (fs : String) (ie : Bool)
    (body : String) (k : Nat) (e e' : String)
    (h : (generate_cheat_sheet cfg svc
        ⟨topic, difficulty, sections, fs, ie⟩).result = some body)
    (hb : body.isEmpty = false) :
    ((create_cheat_sheet cfg svc (.failOpen e) now od topic difficulty
        sections fs ie).result = none ∧
     (create_cheat_sheet cfg svc (.failOpen e) now od topic difficulty
        sections fs ie).files = [] ∧
     ("[red]Error saving file: " ++ e ++ "[/red]") ∈
       (create_cheat_sheet cfg svc (.failOpen e) now od topic difficulty
         sections fs ie).console) ∧
    ((create_cheat_sheet cfg svc (.failPartial k e') now od topic difficulty
        sections fs ie).result = none ∧
     (create_cheat_sheet cfg svc (.failPartial k e') now od topic difficulty
        sections fs ie).files =
       [(cheat_filepath od topic now, ⟨body.data.take k⟩)] ∧
     ("[red]Error saving file: " ++ e' ++ "[/red]") ∈
       (create_cheat_sheet cfg svc (.failPartial k e') now od topic difficulty
         sections fs ie).console) := by
  refine ⟨⟨?_, ?_, ?_⟩, ⟨?_, ?_, ?_⟩⟩ <;>
    simp [create_cheat_sheet, save_cheat_sheet, h, hb]

/-- C9 counterexample: a concrete run in which generation succeeds, the write
raises after three characters, and a truncated file remains at the target
path — contradicting the claim that no partial file is left behind (the
returned failure signal is also the same `none` a generation failure
yields). -/
theorem C9_counterexample_partial_file :
    (create_cheat_sheet (load_config "key" none)
        (fun _ => SvcResult.ok "short but nonempty body")
        (.failPartial 3 "disk full") ⟨2025, 1, 1, 0, 0, 0⟩ "cheat_sheets"
        "pandas" "intermediate" none "comprehensive" true).result = none ∧
    (create_cheat_sheet (load_config "key" none)
        (fun _ => SvcResult.ok "short but nonempty body")
        (.failPartial 3 "disk full") ⟨2025, 1, 1, 0, 0, 0⟩ "cheat_sheets"
        "pandas" "intermediate" none "comprehensive" true).files =
      [("cheat_sheets/pandas_20250101_000000.md", "sho")] :=
  ⟨rfl, rfl⟩

/-- C9 witness: the amended storage-failure theorem applied to a concrete
run whose generation succeeds with body "short but nonempty body". -/
theorem C9_corrected_storage_failure_witness :
    (create_cheat_sheet (load_config "key" none)
        (fun _ => SvcResult.ok "short but nonempty body")
        (.failOpen "denied") ⟨2025, 1, 1, 0, 0, 0⟩ "cheat_sheets" "pandas"
        "intermediate" none "comprehensive" true).files = [] ∧
    (create_cheat_sheet (load_config "key" none)
        (fun _ => SvcResult.ok "short but nonempty body")
        (.failPartial 3 "disk full") ⟨2025, 1, 1, 0, 0, 0⟩ "cheat_sheets"
        "pandas" "intermediate" none "comprehensive" true).files =
      [(cheat_filepath "cheat_sheets" "pandas" ⟨2025, 1, 1, 0, 0, 0⟩,
        ⟨("short but nonempty body" : String).data.take 3⟩)] := by
  have h := C9_corrected_storage_failure (load_config "key" none)
    (fun _ => SvcResult.ok "short but nonempty body") ⟨2025, 1, 1, 0, 0, 0⟩
    "cheat_sheets" "pandas" "intermediate" none "comprehensive" true
    "short but nonempty body" 3 "denied" "disk full" rfl rfl
  exact ⟨h.1.2.1, h.2.2.1⟩

/-- C10: a run whose final response body is the empty string (no exception
raised) is treated at the caller boundary exactly like a failed run: the
create operation returns the absent-result signal and writes no file. -/
theorem C10_empty_body_is_failure (cfg : List (String × PyVal))
    (svc svcp : Nat → SvcResult) (w : WriteOutcome) (now : Timestamp)
    (od topic difficulty : String) (sections : Option (List String))
    (fs : String) (ie : Bool) (ec : Int) (isol : Bool)
    (fa et : Option (List String))
    (h : (generate_cheat_sheet cfg svc
        ⟨topic, difficulty, sections, fs, ie⟩).result = some "")
    (hp : (generate_practice_exercises cfg svcp
        ⟨topic, difficulty, ec, isol, et, fa⟩).result = some "") :
    ((create_cheat_sheet cfg svc w now od topic difficulty sections fs
        ie).result = none ∧
     (create_cheat_sheet cfg svc w now od topic difficulty sections fs
        ie).files = []) ∧
    ((create_practice_document cfg svcp w now od topic difficulty ec isol fa
        et).result = none ∧
     (create_practice_document cfg svcp w now od topic difficulty ec isol fa
        et).files = []) := by
  refine ⟨⟨?_, ?_⟩, ⟨?_, ?_⟩⟩ <;>
    simp [create_cheat_sheet, create_practice_document, h, hp,
      show ("" : String).isEmpty = true from rfl]

/-- C10 witness: the empty-body theorem applied to stub services answering
the empty string at both stages. -/
theorem C10_empty_body_is_failure_witness :
    ((create_cheat_sheet (load_config "key" none) (fun _ => SvcResult.ok "")
        WriteOutcome.success ⟨2025, 1, 1, 0, 0, 0⟩ "cheat_sheets" "pandas"
        "intermediate" none "comprehensive" true).result = none ∧
     (create_cheat_sheet (load_config "key" none) (fun _ => SvcResult.ok "")
        WriteOutcome.success ⟨2025, 1, 1, 0, 0, 0⟩ "cheat_sheets" "pandas"
        "intermediate" none "comprehensive" true).files = []) ∧
    ((create_practice_document (load_config "key" none)
        (fun _ => SvcResult.ok "") WriteOutcome.success ⟨2025, 1, 1, 0, 0, 0⟩
        "cheat_sheets" "pandas" "intermediate" 20 true none none).result =
        none ∧
     (create_practice_document (load_config "key" none)
        (fun _ => SvcResult.ok "") WriteOutcome.success ⟨2025, 1, 1, 0, 0, 0⟩
        "cheat_sheets" "pandas" "intermediate" 20 true none
        none).files = []) :=
  C10_empty_body_is_failure (load_config "key" none) (fun _ => SvcResult.ok "")
    (fun _ => SvcResult.ok "") WriteOutcome.success ⟨2025, 1, 1, 0, 0, 0⟩
    "cheat_sheets" "pandas" "intermediate" none "comprehensive" true 20 true
    none none rfl rfl

end AICSG
